import Mathlib

/-!
Verification development for the taxpayer authentication and secure-transport
subsystem of `india_compliance` (`gst_india/api_classes/taxpayer_base.py`).

Modelling conventions:
  * Machine state of a `TaxpayerBaseAPI` instance (credential fields fetched in
    `_fetch_credentials` plus the company context set in `setup`) is the
    structure `ApiState`; timestamps are natural numbers measured in minutes,
    so that `add_to_date(None, minutes=m)` becomes `now + m`.
  * Python dict truthiness on optional strings (`if not x`) is `strTruthy`:
    both `None` and the empty string count as absent.
  * Side effects (database writes via `frappe.db.set_value`, gateway calls,
    cache updates, scheduling of after-job callbacks) are recorded in an
    explicit trace of `Event` values returned by each operation.
  * Exceptions (`frappe.throw`, `OTPRequestedError`, `InvalidOTPError`,
    `InvalidAuthTokenError`, the `AttributeError` raised by Python when a field
    of `None` is accessed) are the error side of `Except PErr`.
  * Gateway responses are passed in explicitly, one per call site, since the
    transport is an external collaborator.
-/

/-- Truthiness of an optional string, as Python evaluates `if not x`:
`None` and `""` are falsy, every other string is truthy. -/
def strTruthy : Option String → Bool
  | none => false
  | some s => !s.isEmpty

/-- Truthiness of an optional natural number, as Python evaluates `if not n`:
`None` and `0` are falsy. -/
def natTruthy : Option Nat → Bool
  | none => false
  | some n => n != 0

/-- Rendering of an optional string used inside symbolic crypto terms. -/
def optStr : Option String → String
  | none => "#none"
  | some s => "#some:" ++ s

/-- Modelled from the spec: `aes_encrypt_data` of the CryptoOps module
(`gst_india/utils/cryptography.py`, not under `src/`), a stateless total
function; modelled as a symbolic constructor on strings.  The key is optional
because Python call sites can pass `None`. -/
def aes_encrypt_data (data : String) (key : Option String) : String :=
  "AESENC|" ++ data ++ "|" ++ optStr key

/-- Modelled from the spec: `aes_decrypt_data` of the CryptoOps module,
a stateless function; modelled as a symbolic constructor on strings. -/
def aes_decrypt_data (data : String) (key : Option String) : String :=
  "AESDEC|" ++ data ++ "|" ++ optStr key

/-- Modelled from the spec: `encrypt_using_public_key` of the CryptoOps module
(RSA encryption under the certificate embedded public key), modelled as a
symbolic constructor on strings. -/
def encrypt_using_public_key (data : String) (cert : String) : String :=
  "PKENC|" ++ data ++ "|" ++ cert

/-- Modelled from the spec: `hmac_sha256` of the CryptoOps module, a stateless
function returning a tag string; modelled as a symbolic constructor. -/
def hmac_sha256 (data : String) (key : Option String) : String :=
  "HMAC|" ++ data ++ "|" ++ optStr key

/-- Modelled from the spec: `hash_sha256` of the CryptoOps module. -/
def hash_sha256 (data : String) : String :=
  "SHA256|" ++ data

/-- Modelled from the spec: base64 encoding, a stateless injection on byte
strings; modelled as a symbolic constructor. -/
def b64encode (s : String) : String :=
  "B64|" ++ s

/-- Modelled from the spec: base64 decoding, modelled symbolically. -/
def b64decode (s : String) : String :=
  "B64DEC|" ++ s

/-- Modelled from the spec: `frappe.as_json` serialization of a payload string,
modelled symbolically. -/
def as_json_str (s : String) : String :=
  "JSON|" ++ s

/-- Structured error object inside a gateway response
(`response.error` in the source). -/
structure RespError where
  error_cd : Option String := none
  message : Option String := none
  deriving Repr, DecidableEq

/-- Gateway response record (a `frappe._dict`): every field access on a
missing key yields `None`, hence all fields are optional. -/
structure Resp where
  status_cd : Option Int := none
  error : Option RespError := none
  auth_token : Option String := none
  expiry : Option Nat := none
  sek : Option String := none
  data : Option String := none
  rek : Option String := none
  hmac : Option String := none
  error_type : Option String := none
  gstin : Option String := none
  result : Option String := none
  certificate : Option String := none
  deriving Repr, DecidableEq

/-- Modelled from the spec: `frappe.as_json(response, indent=4)`, the raw
response body rendered as text, used as a fallback error message. -/
def as_json (r : Resp) : String :=
  "JSONRESP|" ++ reprStr r

/-- Outbound JSON payload of a gateway request, with the fields the source
reads or writes (`action`, `app_key`, `username`, `otp`, `auth_token`,
`data`, `st`, `sid`, `hmac`, `sign`). -/
structure Payload where
  action : Option String := none
  app_key : Option String := none
  username : Option String := none
  otp : Option String := none
  auth_token : Option String := none
  data : Option String := none
  st : Option String := none
  sid : Option String := none
  hmac : Option String := none
  sign : Option String := none
  deriving Repr, DecidableEq

/-- HTTP headers built by `TaxpayerBaseAPI._request` (`auth-token`,
`rtn_typ`, `userrole`, `ret_period`). -/
structure Headers where
  auth_token : Option String := none
  rtn_typ : Option String := none
  userrole : Option String := none
  ret_period : Option String := none
  deriving Repr, DecidableEq

/-- Partial update written to the GST Credential record by
`frappe.db.set_value`: a field is `none` when the update does not mention it,
`some v` when it sets it to `v` (where `v` itself may be null). -/
structure PersistedValues where
  auth_token : Option (Option String) := none
  session_expiry : Option (Option Nat) := none
  session_key : Option (Option String) := none
  deriving Repr, DecidableEq

/-- Observable side effect of an operation, in order of occurrence. -/
inductive Event where
  | gatewayCall (method : String) (endpoint : Option String)
      (action : Option String) (params : List (String × String))
      (headers : Headers) (json : Option Payload)
  | persist (v : PersistedValues)
  | persistCert (c : Option String)
  | scheduleAfterJob
  | cacheAuthenticated
  | clearSettingsCache
  | dbCommit
  deriving Repr, DecidableEq

/-- Exceptions raised by the subsystem. -/
inductive PErr where
  | otpRequested (r : Resp)
  | invalidOtp (r : Resp)
  | invalidAuthTokenError
  | attributeError
  | fatal (msg : String)
  deriving Repr, DecidableEq

/-- Instance state of a `TaxpayerBaseAPI` object: company context from
`setup`, credential fields from `_fetch_credentials`, the certificate value
that `get_public_certificate` returns for this call, and the cached
`settings.gstn_public_certificate` used by `PublicCertificate`. -/
structure ApiState where
  company_gstin : String
  username : String
  app_key : String
  auth_token : Option String := none
  session_key : String := ""
  session_expiry : Option Nat := none
  public_certificate : String := ""
  gstn_public_certificate : Option String := none
  deriving Repr, DecidableEq

namespace TaxpayerAuthenticate

/-- Embedding of `TaxpayerAuthenticate.get_auth_token`
(taxpayer_base.py lines 267 to 277): the stored token is returned only when
it is truthy, a session expiry is stored, and that expiry is still in the
future; in every other case the result is `None`. -/
def get_auth_token (a : ApiState) (now : Nat) : Option String :=
  if !strTruthy a.auth_token then none
  else
    match a.session_expiry with
    | none => none
    | some e => if e ≤ now then none else a.auth_token

/-- Embedding of `TaxpayerAuthenticate.IGNORED_ERROR_CODES`
(taxpayer_base.py lines 110 to 121), as an association list. -/
def IGNORED_ERROR_CODES : List (String × String) :=
  [("RETOTPREQUEST", "otp_requested"),
   ("EVCREQUEST", "otp_requested"),
   ("AUTH158", "authorization_failed"),
   ("AUTH4033", "invalid_otp"),
   ("AUTH4038", "authorization_failed"),
   ("TEC4002", "invalid_public_key"),
   ("RET13506", "OTP is either expired or incorrect"),
   ("RET00003", "Return Form already ready to be filed"),
   ("RET09001",
    "Latest Summary is not available. Please generate summary and try again.")]

/-- Embedding of `TaxpayerAuthenticate.decrypt_response`
(taxpayer_base.py lines 202 to 235): collects the new auth token, the session
expiry computed as now plus the declared expiry minutes, and the session key
obtained by AES-decrypting `sek` under the app key; when at least one value
was collected it writes them to the GST Credential record and clears the
settings cache, then returns the response unchanged. -/
def decrypt_response (a : ApiState) (now : Nat) (r : Resp) :
    List Event × ApiState × Resp :=
  let va : PersistedValues := {}
  let (va, a) :=
    if strTruthy r.auth_token then
      ({ va with auth_token := some r.auth_token },
       { a with auth_token := r.auth_token })
    else (va, a)
  let (va, a) :=
    if natTruthy r.expiry then
      let session_expiry := now + r.expiry.getD 0
      ({ va with session_expiry := some (some session_expiry) },
       { a with session_expiry := some session_expiry })
    else (va, a)
  let (va, a) :=
    if strTruthy r.sek then
      let session_key := aes_decrypt_data (r.sek.getD "") (some a.app_key)
      ({ va with session_key := some (some (b64encode session_key)) },
       { a with session_key := session_key })
    else (va, a)
  if va ≠ ({} : PersistedValues) then
    ([Event.persist va, Event.clearSettingsCache], a, r)
  else ([], a, r)

/-- Embedding of `TaxpayerAuthenticate.encrypt_request`
(taxpayer_base.py lines 237 to 251): a truthy `app_key` field is replaced by
the instance app key encrypted under the session key when the action is
`REFRESHTOKEN` and under the gateway public certificate otherwise; a truthy
`otp` field is AES-encrypted under the app key.  The certificate value
returned by `self.get_public_certificate()` is the state field
`public_certificate`. -/
def encrypt_request (a : ApiState) (p : Payload) : Payload :=
  let encrypted_app_key :=
    if p.action = some "REFRESHTOKEN" then
      aes_encrypt_data a.app_key (some a.session_key)
    else
      encrypt_using_public_key a.app_key a.public_certificate
  let p1 :=
    if strTruthy p.app_key then { p with app_key := some encrypted_app_key }
    else p
  if strTruthy p1.otp then
    { p1 with otp := some (aes_encrypt_data (p1.otp.getD "") (some a.app_key)) }
  else p1

/-- Embedding of `TaxpayerAuthenticate.reset_auth_token`
(taxpayer_base.py lines 279 to 294): clears the stored auth token and commits
unless running in tests. -/
def reset_auth_token (in_test : Bool) : List Event :=
  Event.persist { auth_token := some none } ::
    (if in_test then [] else [Event.dbCommit])

end TaxpayerAuthenticate

namespace PublicCertificate

/-- Embedding of `PublicCertificate.get_gstn_public_certificate`
(taxpayer_base.py lines 51 to 59): fetches the certificate from the static
endpoint; when it equals the cached `settings.gstn_public_certificate` it
throws the given message (falling back to a fixed text), otherwise it persists
the new certificate and returns it.  The transport GET is spec-modelled (the
`BaseAPI` helper lives in `base.py`, not under `src/`): the fetched response
is the explicit argument `fresp`. -/
def get_gstn_public_certificate (cached : Option String)
    (error_message : Option String) (fresp : Resp) :
    List Event × Except PErr (Option String) :=
  let ev := [Event.gatewayCall "get" (some "gstn_g2b_prod_public") none [] {} none]
  if fresp.certificate = cached then
    (ev, .error (.fatal
      (if strTruthy error_message then error_message.getD ""
       else "Public Certificate is already up to date")))
  else
    (ev ++ [Event.persistCert fresp.certificate], .ok fresp.certificate)

end PublicCertificate

namespace TaxpayerBaseAPI

/-- Embedding of `TaxpayerBaseAPI.IGNORED_ERROR_CODES`
(taxpayer_base.py lines 300 to 303): the inherited table extended with one
code. -/
def IGNORED_ERROR_CODES : List (String × String) :=
  TaxpayerAuthenticate.IGNORED_ERROR_CODES ++
    [("RT-R1R3BAV-1007", "authorization_failed")]

/-- Embedding of `TaxpayerBaseAPI.is_ignored_error`
(taxpayer_base.py lines 440 to 453): looks up the error code in the table;
on a hit it stores the mapped error type and the company gstin on the
response, raises for the OTP outcomes, and reports the error as ignored
otherwise; on a miss it reports not ignored. -/
def is_ignored_error (a : ApiState) (r : Resp) : Except PErr (Bool × Resp) :=
  match (r.error.getD {}).error_cd with
  | none => .ok (false, r)
  | some cd =>
    match IGNORED_ERROR_CODES.lookup cd with
    | none => .ok (false, r)
    | some et =>
      let r' := { r with error_type := some et, gstin := some a.company_gstin }
      if et = "otp_requested" then .error (.otpRequested r')
      else if et = "invalid_otp" then .error (.invalidOtp r')
      else .ok (true, r')

/-- Error message used for the invalid-public-key certificate refresh
(taxpayer_base.py lines 434 to 438). -/
def invalid_public_key_message : String :=
  "Looks like Public Key of GSTN used for encryption is Invalid"

/-- Embedding of `TaxpayerBaseAPI.handle_error_response`
(taxpayer_base.py lines 421 to 438): a response whose `status_cd` is 0 and
whose error code is not recognized fails with the structured message,
falling back to the rendered response body; a recognized code is absorbed
(or raised as an OTP outcome by `is_ignored_error`); an
`invalid_public_key` classification triggers a forced certificate refetch,
whose fetched response is the explicit argument `certResp`. -/
def handle_error_response (a : ApiState) (certResp : Resp) (r : Resp) :
    List Event × Except PErr Resp :=
  let success_value := r.status_cd != some 0
  match (if success_value then Except.ok (false, r) else is_ignored_error a r) with
  | .error e => ([], .error e)
  | .ok (ignored, r') =>
    if !success_value && !ignored then
      ([], .error (.fatal
        (match (r'.error.getD {}).message with
         | some m => if m.isEmpty then as_json r' else m
         | none => as_json r')))
    else if r'.error_type = some "invalid_public_key" then
      match PublicCertificate.get_gstn_public_certificate
          a.gstn_public_certificate (some invalid_public_key_message) certResp with
      | (evc, .error e) => (evc, .error e)
      | (evc, .ok _) => (evc, .ok r')
    else ([], .ok r')

/-- Data key used to decrypt a business response
(taxpayer_base.py lines 384 to 390): the `rek` field AES-decrypted under the
session key when present, else the Python `None` the source initializes
`decrypted_rek` with. -/
def rek_key (a : ApiState) (r : Resp) : Option String :=
  if strTruthy r.rek then
    some (aes_decrypt_data (r.rek.getD "") (some a.session_key))
  else none

/-- Embedding of `TaxpayerBaseAPI.decrypt_response`
(taxpayer_base.py lines 383 to 402): a response carrying an auth token is a
rotation event handled by the inherited `decrypt_response`; otherwise a
truthy `data` field is popped and AES-decrypted under the `rek`-derived data
key, and when an `hmac` field is present the recomputed tag must equal it or
the call fails with the HMAC mismatch error; on success the decoded plaintext
is stored in `result` (`frappe.parse_json` is modelled as the identity on the
decoded text). -/
def decrypt_response (a : ApiState) (now : Nat) (r : Resp) :
    List Event × ApiState × Except PErr Resp :=
  if strTruthy r.auth_token then
    let (ev, a', r') := TaxpayerAuthenticate.decrypt_response a now r
    (ev, a', .ok r')
  else
    let decrypted_rek := rek_key a r
    if strTruthy r.data then
      let decrypted_data := aes_decrypt_data (r.data.getD "") decrypted_rek
      let r1 := { r with data := none }
      if strTruthy r.hmac then
        if some (hmac_sha256 decrypted_data decrypted_rek) ≠ r.hmac then
          ([], a, .error (.fatal "HMAC mismatch"))
        else
          ([], a, .ok { r1 with result := some (b64decode decrypted_data) })
      else
        ([], a, .ok { r1 with result := some (b64decode decrypted_data) })
    else ([], a, .ok r)

/-- Embedding of `TaxpayerBaseAPI.encrypt_request`
(taxpayer_base.py lines 404 to 419): applies the inherited encryption of
`app_key` and `otp`, then for a truthy `data` field serializes it, base64
encodes it, AES-encrypts it under the session key, and attaches an HMAC tag
under the `sid` key for EVC submissions and under the session key
otherwise. -/
def encrypt_request (a : ApiState) (p : Payload) : Payload :=
  let p1 := TaxpayerAuthenticate.encrypt_request a p
  if strTruthy p1.data then
    let b64_data := b64encode (as_json_str (p1.data.getD ""))
    let p2 := { p1 with data := some (aes_encrypt_data b64_data (some a.session_key)) }
    if p2.st = some "EVC" then
      { p2 with sign := some (hmac_sha256 b64_data p2.sid) }
    else
      { p2 with hmac := some (hmac_sha256 b64_data (some a.session_key)) }
  else p1

/-- Embedding of `TaxpayerBaseAPI.process_response`
(taxpayer_base.py lines 378 to 381): error classification followed by
decryption. -/
def process_response (a : ApiState) (now : Nat) (certResp : Resp) (r : Resp) :
    List Event × ApiState × Except PErr Resp :=
  match handle_error_response a certResp r with
  | (e1, .error e) => (e1, a, .error e)
  | (e1, .ok r1) =>
    let (e2, a', r2) := decrypt_response a now r1
    (e1 ++ e2, a', r2)

/-- Modelled from the spec: the `BaseAPI` request helpers (`base.py`, not
under `src/`) encrypt the outbound payload via the `before_request` hook,
send it, and pass the raw gateway response (the explicit argument `gwResp`)
through `process_response`. -/
def base_request (a : ApiState) (now : Nat) (certResp : Resp) (method : String)
    (endpoint : Option String) (action : Option String)
    (params : List (String × String)) (headers : Headers)
    (json : Option Payload) (gwResp : Resp) :
    List Event × ApiState × Except PErr Resp :=
  let ejson := json.map (encrypt_request a)
  let (ev, a', res) := process_response a now certResp gwResp
  (Event.gatewayCall method endpoint action params headers ejson :: ev, a', res)

end TaxpayerBaseAPI

namespace TaxpayerAuthenticate

/-- Embedding of `TaxpayerAuthenticate.request_otp`
(taxpayer_base.py lines 123 to 138): posts an `OTPREQUEST` payload; when the
processed response has `status_cd` 1 it marks the response as
`otp_requested`, stores the company gstin on it, and raises
`OTPRequestedError`; otherwise it returns `None`.  The instance has class
`TaxpayerBaseAPI`, so the post dispatches to its processing chain. -/
def request_otp (a : ApiState) (now : Nat) (certResp gwResp : Resp) :
    List Event × ApiState × Except PErr (Option Resp) :=
  let json : Payload :=
    { action := some "OTPREQUEST", app_key := some a.app_key,
      username := some a.username }
  let (ev, a', res) := TaxpayerBaseAPI.base_request a now certResp "post"
    (some "authenticate") none [] {} (some json) gwResp
  match res with
  | .error e => (ev, a', .error e)
  | .ok rr =>
    if rr.status_cd != some 1 then (ev, a', .ok none)
    else
      let r2 := { rr with error_type := some "otp_requested",
                          gstin := some a.company_gstin }
      (ev, a', .error (.otpRequested r2))

/-- Embedding of `TaxpayerAuthenticate.autheticate_with_otp`
(taxpayer_base.py lines 140 to 177, keeping the spelling of the source):
without an OTP it either schedules the token reset after the running job and
raises `InvalidAuthTokenError`, or clears the stored token inline and
requests a fresh OTP; with an OTP it posts an `AUTHTOKEN` payload and caches
the recently-authenticated marker. -/
def autheticate_with_otp (a : ApiState) (inJob : Bool) (now : Nat)
    (certResp : Resp) (otp : Option String) (gwResp : Resp) :
    List Event × ApiState × Except PErr (Option Resp) :=
  if !strTruthy otp then
    if inJob then ([Event.scheduleAfterJob], a, .error .invalidAuthTokenError)
    else
      let a' := { a with auth_token := none }
      let (ev, a'', res) := request_otp a' now certResp gwResp
      (Event.persist { auth_token := some none } :: ev, a'', res)
  else
    let json : Payload :=
      { action := some "AUTHTOKEN", app_key := some a.app_key,
        username := some a.username, otp := otp }
    let (ev, a', res) := TaxpayerBaseAPI.base_request a now certResp "post"
      (some "authenticate") none [] {} (some json) gwResp
    match res with
    | .error e => (ev, a', .error e)
    | .ok rr => (ev ++ [Event.cacheAuthenticated], a', .ok (some rr))

/-- Embedding of `TaxpayerAuthenticate.refresh_auth_token`
(taxpayer_base.py lines 179 to 193): with no live token it returns `None`
without a gateway call; otherwise it posts a `REFRESHTOKEN` payload carrying
the token. -/
def refresh_auth_token (a : ApiState) (now : Nat) (certResp gwResp : Resp) :
    List Event × ApiState × Except PErr (Option Resp) :=
  match get_auth_token a now with
  | none => ([], a, .ok none)
  | some tok =>
    let json : Payload :=
      { action := some "REFRESHTOKEN", app_key := some a.app_key,
        username := some a.username, auth_token := some tok }
    let (ev, a', res) := TaxpayerBaseAPI.base_request a now certResp "post"
      (some "authenticate") none [] {} (some json) gwResp
    match res with
    | .error e => (ev, a', .error e)
    | .ok rr => (ev, a', .ok (some rr))

end TaxpayerAuthenticate

/-- Embedding of the `otp_handler` decorator (taxpayer_base.py lines 29
to 45): the OTP control-flow exceptions are converted into ordinary return
values; every other outcome passes through unchanged. -/
def otp_handler (x : Except PErr (Option Resp)) : Except PErr (Option Resp) :=
  match x with
  | .error (.otpRequested r) => .ok (some r)
  | .error (.invalidOtp r) => .ok (some r)
  | other => other

namespace TaxpayerBaseAPI

/-- Headers built by `TaxpayerBaseAPI._request`
(taxpayer_base.py lines 345 to 351): the `auth-token` header always, the
return-type and return-period headers only when those arguments are
truthy. -/
def mk_request_headers (auth_token return_type return_period : Option String) :
    Headers :=
  { auth_token := auth_token,
    rtn_typ := if strTruthy return_type then return_type else none,
    userrole := if strTruthy return_type then return_type else none,
    ret_period := if strTruthy return_period then return_period else none }

/-- Steps 2 to 5 of `TaxpayerBaseAPI._request`
(taxpayer_base.py lines 345 to 363): build headers from the token resolved
at entry, send the business request, and on an `authorization_failed`
classification perform one OTP-less re-authentication and return its
outcome. -/
def request_core (a : ApiState) (inJob : Bool) (now : Nat) (certResp : Resp)
    (method : String) (action return_type return_period : Option String)
    (params : List (String × String)) (endpoint : Option String)
    (json : Option Payload) (auth_token : Option String)
    (bizResp reauthResp : Resp) :
    List Event × ApiState × Except PErr (Option Resp) :=
  let headers := mk_request_headers auth_token return_type return_period
  let (evB, a2, rB) := base_request a now certResp method endpoint action
    params headers json bizResp
  match rB with
  | .error e => (evB, a2, .error e)
  | .ok rb =>
    if rb.error_type = some "authorization_failed" then
      let (evR, a3, rR) := TaxpayerAuthenticate.autheticate_with_otp a2 inJob
        now certResp none reauthResp
      (evB ++ evR, a3, rR)
    else (evB, a2, .ok (some rb))

/-- Embedding of `TaxpayerBaseAPI._request`
(taxpayer_base.py lines 327 to 363): resolve the auth token; when it is
absent or an OTP was supplied, run the authentication sub-flow first and
return its outcome directly when it is `otp_requested` or `invalid_otp`
(Python raises `AttributeError` when that sub-flow returned `None`);
otherwise proceed with the business request and the single retry of
`request_core`.  The three explicit responses are the gateway replies for
the authentication call, the business call, and the re-authentication
call, in that order. -/
def taxpayer_request (a : ApiState) (inJob : Bool) (now : Nat) (certResp : Resp)
    (method : String) (action return_type return_period : Option String)
    (params : List (String × String)) (endpoint : Option String)
    (json : Option Payload) (otp : Option String)
    (authResp bizResp reauthResp : Resp) :
    List Event × ApiState × Except PErr (Option Resp) :=
  let auth_token := TaxpayerAuthenticate.get_auth_token a now
  if auth_token = none ∨ strTruthy otp then
    let (evA, a1, rA) := TaxpayerAuthenticate.autheticate_with_otp a inJob now
      certResp otp authResp
    match rA with
    | .error e => (evA, a1, .error e)
    | .ok none => (evA, a1, .error .attributeError)
    | .ok (some ra) =>
      if ra.error_type = some "otp_requested" ∨ ra.error_type = some "invalid_otp"
      then (evA, a1, .ok (some ra))
      else
        let (ev2, a2, r2) := request_core a1 inJob now certResp method action
          return_type return_period params endpoint json auth_token bizResp reauthResp
        (evA ++ ev2, a2, r2)
  else
    request_core a inJob now certResp method action return_type return_period
      params endpoint json auth_token bizResp reauthResp

/-- Embedding of `TaxpayerBaseAPI.get` (taxpayer_base.py lines 365 to 367):
adds the company gstin to the params and delegates to `_request`. -/
def taxpayer_get (a : ApiState) (inJob : Bool) (now : Nat) (certResp : Resp)
    (action return_type return_period : Option String)
    (params : List (String × String)) (endpoint : Option String)
    (json : Option Payload) (otp : Option String)
    (authResp bizResp reauthResp : Resp) :
    List Event × ApiState × Except PErr (Option Resp) :=
  taxpayer_request a inJob now certResp "get" action return_type return_period
    (("gstin", a.company_gstin) :: params) endpoint json otp
    authResp bizResp reauthResp

/-- Embedding of `TaxpayerBaseAPI.post` (taxpayer_base.py lines 369
to 370). -/
def taxpayer_post (a : ApiState) (inJob : Bool) (now : Nat) (certResp : Resp)
    (action return_type return_period : Option String)
    (params : List (String × String)) (endpoint : Option String)
    (json : Option Payload) (otp : Option String)
    (authResp bizResp reauthResp : Resp) :
    List Event × ApiState × Except PErr (Option Resp) :=
  taxpayer_request a inJob now certResp "post" action return_type return_period
    params endpoint json otp authResp bizResp reauthResp

/-- Embedding of `TaxpayerBaseAPI.put` (taxpayer_base.py lines 372
to 373). -/
def taxpayer_put (a : ApiState) (inJob : Bool) (now : Nat) (certResp : Resp)
    (action return_type return_period : Option String)
    (params : List (String × String)) (endpoint : Option String)
    (json : Option Payload) (otp : Option String)
    (authResp bizResp reauthResp : Resp) :
    List Event × ApiState × Except PErr (Option Resp) :=
  taxpayer_request a inJob now certResp "put" action return_type return_period
    params endpoint json otp authResp bizResp reauthResp

end TaxpayerBaseAPI

/-- Discriminator for gateway-call events in a trace. -/
def isGatewayCall : Event → Bool
  | .gatewayCall .. => true
  | _ => false

/-- Statement of claim C4 following the words of the spec: the values a
successful authentication response must rotate into the credential store:
the new auth token when present, the session expiry equal to now plus the
declared expiry minutes when present, and the session key obtained by
AES-decrypting `sek` under the app key when present. -/
def rotation_values_spec (a : ApiState) (now : Nat) (r : Resp) :
    PersistedValues :=
  { auth_token := if strTruthy r.auth_token then some r.auth_token else none,
    session_expiry :=
      if natTruthy r.expiry then some (some (now + r.expiry.getD 0)) else none,
    session_key :=
      if strTruthy r.sek then
        some (some (b64encode (aes_decrypt_data (r.sek.getD "") (some a.app_key))))
      else none }

/-- Statement of claim C3 following the words of the spec: the stored token is
returned exactly when the token is present, the expiry is present, and the
current time is strictly before the expiry; otherwise absent. -/
def get_auth_token_spec (a : ApiState) (now : Nat) : Option String :=
  if strTruthy a.auth_token
      && (match a.session_expiry with
          | some e => decide (now < e)
          | none => false)
  then a.auth_token
  else none

/-- C3: for every credential state, `get_auth_token()` returns the stored auth
token only when the token is present, the session expiry is present, and the
current time is strictly before the expiry; in every other case it returns
absent.  Proved as an equality between the code embedding and the definition
written from the claim. -/
theorem claim_C3_get_auth_token_matches_spec (a : ApiState) (now : Nat) :
    TaxpayerAuthenticate.get_auth_token a now = get_auth_token_spec a now := by
  unfold TaxpayerAuthenticate.get_auth_token get_auth_token_spec
  cases h : strTruthy a.auth_token with
  | false =>
      simp [h]
  | true =>
      cases he : a.session_expiry with
      | none => simp [h, he]
      | some e =>
          simp only [h, he, Bool.not_true, Bool.false_eq_true, if_false]
          by_cases hle : e ≤ now
          · have : ¬ now < e := by omega
            simp [hle, this]
          · have : now < e := by omega
            simp [hle, this]

/-- C2: for every inbound response carrying encrypted data and an hmac field
(and not an auth-token rotation), if the recomputed HMAC-SHA256 of the
decrypted data under the data key differs from the response hmac, then
decryption fails with the fatal integrity error and the tampered plaintext is
never returned. -/
theorem claim_C2_hmac_mismatch_is_fatal (a : ApiState) (now : Nat) (r : Resp)
    (hna : strTruthy r.auth_token = false)
    (hd : strTruthy r.data = true)
    (hh : strTruthy r.hmac = true)
    (hmm : some (hmac_sha256 (aes_decrypt_data (r.data.getD "")
            (TaxpayerBaseAPI.rek_key a r)) (TaxpayerBaseAPI.rek_key a r))
          ≠ r.hmac) :
    TaxpayerBaseAPI.decrypt_response a now r
      = ([], a, .error (.fatal "HMAC mismatch")) := by
  unfold TaxpayerBaseAPI.decrypt_response
  simp [hna, hd, hh, hmm]

/-- Witness for C2 at a concrete tampered response. -/
theorem claim_C2_hmac_mismatch_is_fatal_witness :
    TaxpayerBaseAPI.decrypt_response
        { company_gstin := "27AAACI1234A1Z5", username := "u", app_key := "ak" }
        0
        { status_cd := some 1, data := some "cipher", rek := some "wrek",
          hmac := some "deadbeef" }
      = ([], { company_gstin := "27AAACI1234A1Z5", username := "u", app_key := "ak" },
         .error (.fatal "HMAC mismatch")) := by
  exact claim_C2_hmac_mismatch_is_fatal _ _ _ (by decide) (by decide) (by decide)
    (by decide)

/-- C4: for every successful authentication response, `decrypt_response`
persists, within the call and before handing the response back, exactly the
claimed rotation values (the new auth token when present, the session expiry
equal to now plus the declared expiry minutes when present, the decrypted
session key when present), and returns the response unchanged. -/
theorem claim_C4_auth_rotation_persisted (a : ApiState) (now : Nat) (r : Resp)
    (h : rotation_values_spec a now r ≠ ({} : PersistedValues)) :
    (TaxpayerAuthenticate.decrypt_response a now r).1
        = [Event.persist (rotation_values_spec a now r), Event.clearSettingsCache]
      ∧ (TaxpayerAuthenticate.decrypt_response a now r).2.2 = r := by
  unfold rotation_values_spec at h ⊢
  unfold TaxpayerAuthenticate.decrypt_response
  cases h1 : strTruthy r.auth_token <;> cases h2 : natTruthy r.expiry <;>
    cases h3 : strTruthy r.sek <;>
      simp [h1, h2, h3] at h ⊢

/-- Witness for C4 at a concrete rotation response. -/
theorem claim_C4_auth_rotation_persisted_witness :
    (TaxpayerAuthenticate.decrypt_response
        { company_gstin := "27AAACI1234A1Z5", username := "u", app_key := "ak" }
        100
        { status_cd := some 1, auth_token := some "tok", expiry := some 360,
          sek := some "wrappedkey" }).1
      = [Event.persist
          { auth_token := some (some "tok"),
            session_expiry := some (some 460),
            session_key := some (some (b64encode (aes_decrypt_data "wrappedkey" (some "ak")))) },
         Event.clearSettingsCache] := by
  exact (claim_C4_auth_rotation_persisted _ _ _ (by decide)).1

/-- C5: for every outbound payload carrying an app_key field,
`encrypt_request` replaces it with the app key encrypted under the session
key exactly when the action is `REFRESHTOKEN`, and with the app key encrypted
under the gateway public certificate for every other action. -/
theorem claim_C5_app_key_encryption_by_action (a : ApiState) (p : Payload)
    (h : strTruthy p.app_key = true) :
    (TaxpayerAuthenticate.encrypt_request a p).app_key =
      some (if p.action = some "REFRESHTOKEN" then
              aes_encrypt_data a.app_key (some a.session_key)
            else
              encrypt_using_public_key a.app_key a.public_certificate) := by
  unfold TaxpayerAuthenticate.encrypt_request
  by_cases ho : strTruthy p.otp <;> simp [h, ho]

/-- Witness for C5: refresh payloads get the session-key encryption, OTP
submission payloads the public-key encryption. -/
theorem claim_C5_app_key_encryption_by_action_witness :
    (TaxpayerAuthenticate.encrypt_request
        { company_gstin := "g", username := "u", app_key := "ak",
          session_key := "sk", public_certificate := "CERT" }
        { action := some "REFRESHTOKEN", app_key := some "ak" }).app_key
      = some (aes_encrypt_data "ak" (some "sk"))
    ∧ (TaxpayerAuthenticate.encrypt_request
        { company_gstin := "g", username := "u", app_key := "ak",
          session_key := "sk", public_certificate := "CERT" }
        { action := some "AUTHTOKEN", app_key := some "ak" }).app_key
      = some (encrypt_using_public_key "ak" "CERT") := by
  constructor
  · exact claim_C5_app_key_encryption_by_action _ _ (by decide)
  · have h := claim_C5_app_key_encryption_by_action
      { company_gstin := "g", username := "u", app_key := "ak",
        session_key := "sk", public_certificate := "CERT" }
      { action := some "AUTHTOKEN", app_key := some "ak" } (by decide)
    simpa using h

/-- C8: authenticating without an OTP inside a deferred job schedules the
token reset to run after the job and raises `InvalidAuthTokenError`
immediately, with no inline write; outside a job it clears the stored auth
token inline and initiates a fresh OTP request. -/
theorem claim_C8_otpless_auth_reset_policy (a : ApiState) (now : Nat)
    (certResp gwResp : Resp) :
    (TaxpayerAuthenticate.autheticate_with_otp a true now certResp none gwResp
        = ([Event.scheduleAfterJob], a, .error .invalidAuthTokenError))
    ∧ (TaxpayerAuthenticate.autheticate_with_otp a false now certResp none gwResp
        = (Event.persist { auth_token := some none } ::
             (TaxpayerAuthenticate.request_otp { a with auth_token := none }
               now certResp gwResp).1,
           (TaxpayerAuthenticate.request_otp { a with auth_token := none }
               now certResp gwResp).2.1,
           (TaxpayerAuthenticate.request_otp { a with auth_token := none }
               now certResp gwResp).2.2)) := by
  constructor
  · rfl
  · rfl

/-- C9: a forced certificate refetch that returns a certificate identical to
the cached one fails with a user-facing error after a single fetch (no
retry loop); a changed certificate is persisted and returned, again after a
single fetch. -/
theorem claim_C9_certificate_refetch_policy (cached em : Option String)
    (fresp : Resp) :
    (fresp.certificate = cached →
        (∃ msg, (PublicCertificate.get_gstn_public_certificate cached em fresp).2
            = .error (.fatal msg))
        ∧ ((PublicCertificate.get_gstn_public_certificate cached em fresp).1.filter
            isGatewayCall).length = 1)
    ∧ (fresp.certificate ≠ cached →
        (PublicCertificate.get_gstn_public_certificate cached em fresp).2
            = .ok fresp.certificate
        ∧ Event.persistCert fresp.certificate
            ∈ (PublicCertificate.get_gstn_public_certificate cached em fresp).1
        ∧ ((PublicCertificate.get_gstn_public_certificate cached em fresp).1.filter
            isGatewayCall).length = 1) := by
  unfold PublicCertificate.get_gstn_public_certificate
  constructor
  · intro hsame
    simp [hsame, isGatewayCall]
  · intro hdiff
    simp [hdiff, isGatewayCall]

/-- Witness for C9: both branches at concrete certificates. -/
theorem claim_C9_certificate_refetch_policy_witness :
    (∃ msg, (PublicCertificate.get_gstn_public_certificate (some "PEM-A") none
        { certificate := some "PEM-A" }).2 = .error (.fatal msg))
    ∧ (PublicCertificate.get_gstn_public_certificate (some "PEM-A") none
        { certificate := some "PEM-B" }).2 = .ok (some "PEM-B") := by
  constructor
  · exact ((claim_C9_certificate_refetch_policy (some "PEM-A") none
      { certificate := some "PEM-A" }).1 (by decide)).1
  · exact ((claim_C9_certificate_refetch_policy (some "PEM-A") none
      { certificate := some "PEM-B" }).2 (by decide)).1

/-- C7: a gateway response with non-success status whose error code is not in
the recognized table fails fatally with the structured error message, falling
back to the rendered response body when no structured message is present;
the error is never absorbed. -/
theorem claim_C7_unrecognized_error_is_fatal (a : ApiState) (certResp r : Resp)
    (h0 : r.status_cd = some 0)
    (hcd : ∀ cd, (r.error.getD {}).error_cd = some cd →
        TaxpayerBaseAPI.IGNORED_ERROR_CODES.lookup cd = none) :
    TaxpayerBaseAPI.handle_error_response a certResp r
      = ([], .error (.fatal
          (match (r.error.getD {}).message with
           | some m => if m.isEmpty then as_json r else m
           | none => as_json r))) := by
  unfold TaxpayerBaseAPI.handle_error_response TaxpayerBaseAPI.is_ignored_error
  cases hc : (r.error.getD {}).error_cd with
  | none => simp [h0, hc]
  | some cd => simp [h0, hc, hcd cd hc]

/-- Witness for C7 at an unrecognized code with a structured message. -/
theorem claim_C7_unrecognized_error_is_fatal_witness :
    TaxpayerBaseAPI.handle_error_response
        { company_gstin := "g", username := "u", app_key := "ak" }
        {}
        { status_cd := some 0,
          error := some { error_cd := some "XYZ999", message := some "boom" } }
      = ([], .error (.fatal "boom")) := by
  have h := claim_C7_unrecognized_error_is_fatal
    { company_gstin := "g", username := "u", app_key := "ak" } {}
    { status_cd := some 0,
      error := some { error_cd := some "XYZ999", message := some "boom" } }
    rfl (by intro cd hcd; cases hcd; decide)
  simpa using h

/-- C6: a fresh-credential OTP request whose gateway acknowledgement succeeds
yields, through the otp_handler boundary, an ordinary `otp_requested`
outcome carrying the company gstin the flow was set up with, and the
operation emits no credential write at all (in particular no auth token is
persisted). -/
theorem claim_C6_fresh_otp_request_outcome (a : ApiState) (now : Nat)
    (certResp gwResp : Resp)
    (h1 : gwResp.status_cd = some 1)
    (ht : strTruthy gwResp.auth_token = false)
    (hd : strTruthy gwResp.data = false)
    (he : gwResp.error_type = none) :
    otp_handler (TaxpayerAuthenticate.request_otp a now certResp gwResp).2.2
        = .ok (some { gwResp with error_type := some "otp_requested",
                                  gstin := some a.company_gstin })
      ∧ ∀ v, Event.persist v ∉ (TaxpayerAuthenticate.request_otp a now certResp gwResp).1 := by
  unfold TaxpayerAuthenticate.request_otp TaxpayerBaseAPI.base_request
    TaxpayerBaseAPI.process_response TaxpayerBaseAPI.handle_error_response
    TaxpayerBaseAPI.decrypt_response otp_handler
  simp [h1, ht, hd, he]

/-- Witness for C6 at a concrete acknowledgement. -/
theorem claim_C6_fresh_otp_request_outcome_witness :
    otp_handler (TaxpayerAuthenticate.request_otp
        { company_gstin := "27AAACI1234A1Z5", username := "u", app_key := "ak" }
        0 {} { status_cd := some 1 }).2.2
      = .ok (some { status_cd := some 1, error_type := some "otp_requested",
                    gstin := some "27AAACI1234A1Z5" }) := by
  exact (claim_C6_fresh_otp_request_outcome
    { company_gstin := "27AAACI1234A1Z5", username := "u", app_key := "ak" }
    0 {} { status_cd := some 1 } rfl (by decide) (by decide) rfl).1

/-- C1: a pipeline request made with a live auth token whose business
response is classified `authorization_failed` performs exactly one automatic
OTP-less re-authentication and returns the outcome of that
re-authentication; the trace shows a single business gateway call followed
only by the re-authentication events, so the business request is never sent
a second time. -/
theorem claim_C1_single_reauth_on_authorization_failure
    (a : ApiState) (inJob : Bool) (now : Nat) (certResp : Resp)
    (method : String) (action return_type return_period : Option String)
    (params : List (String × String)) (endpoint : Option String)
    (json : Option Payload) (otp : Option String)
    (authResp bizResp reauthResp : Resp)
    (t : String) (htok : TaxpayerAuthenticate.get_auth_token a now = some t)
    (hotp : strTruthy otp = false)
    (h0 : bizResp.status_cd = some 0)
    (er : RespError) (herr : bizResp.error = some er)
    (cd : String) (hcd : er.error_cd = some cd)
    (hmap : TaxpayerBaseAPI.IGNORED_ERROR_CODES.lookup cd
        = some "authorization_failed")
    (hna : strTruthy bizResp.auth_token = false)
    (hnd : strTruthy bizResp.data = false) :
    TaxpayerBaseAPI.taxpayer_request a inJob now certResp method action
        return_type return_period params endpoint json otp authResp bizResp
        reauthResp
      = (Event.gatewayCall method endpoint action params
           (TaxpayerBaseAPI.mk_request_headers (some t) return_type return_period)
           (json.map (TaxpayerBaseAPI.encrypt_request a)) ::
         (TaxpayerAuthenticate.autheticate_with_otp a inJob now certResp none
           reauthResp).1,
         (TaxpayerAuthenticate.autheticate_with_otp a inJob now certResp none
           reauthResp).2.1,
         (TaxpayerAuthenticate.autheticate_with_otp a inJob now certResp none
           reauthResp).2.2) := by
  unfold TaxpayerBaseAPI.taxpayer_request TaxpayerBaseAPI.request_core
    TaxpayerBaseAPI.base_request TaxpayerBaseAPI.process_response
    TaxpayerBaseAPI.handle_error_response TaxpayerBaseAPI.is_ignored_error
    TaxpayerBaseAPI.decrypt_response
  simp [htok, hotp, h0, herr, hcd, hmap, hna, hnd,
    show ("authorization_failed" : String) ≠ "otp_requested" by decide,
    show ("authorization_failed" : String) ≠ "invalid_otp" by decide,
    show ("authorization_failed" : String) ≠ "invalid_public_key" by decide]

/-- Witness for C1: a session-expired business call inside a job triggers
exactly one re-authentication, which schedules the reset and fails fast. -/
theorem claim_C1_single_reauth_on_authorization_failure_witness :
    TaxpayerBaseAPI.taxpayer_request
        { company_gstin := "g", username := "u", app_key := "ak",
          auth_token := some "tok", session_expiry := some 100 }
        true 0 {} "get" (some "GETPREF") none none [] (some "returns") none none
        {} { status_cd := some 0, error := some { error_cd := some "AUTH4038" } } {}
      = ([Event.gatewayCall "get" (some "returns") (some "GETPREF") []
            (TaxpayerBaseAPI.mk_request_headers (some "tok") none none) none,
          Event.scheduleAfterJob],
         { company_gstin := "g", username := "u", app_key := "ak",
           auth_token := some "tok", session_expiry := some 100 },
         .error .invalidAuthTokenError) := by
  have h := claim_C1_single_reauth_on_authorization_failure
    { company_gstin := "g", username := "u", app_key := "ak",
      auth_token := some "tok", session_expiry := some 100 }
    true 0 {} "get" (some "GETPREF") none none [] (some "returns") none none
    {} { status_cd := some 0, error := some { error_cd := some "AUTH4038" } } {}
    "tok" rfl rfl rfl { error_cd := some "AUTH4038" } rfl "AUTH4038" rfl
    (by decide) rfl rfl
  simpa [TaxpayerAuthenticate.autheticate_with_otp] using h

/-- Helper: the inherited `decrypt_response` always hands the response back
unchanged. -/
theorem decrypt_response_returns_response (a : ApiState) (now : Nat) (r : Resp) :
    (TaxpayerAuthenticate.decrypt_response a now r).2.2 = r := by
  cases h1 : strTruthy r.auth_token <;> cases h2 : natTruthy r.expiry <;>
    cases h3 : strTruthy r.sek <;>
      simp [TaxpayerAuthenticate.decrypt_response, h1, h2, h3]

/-- Helper: when the response carries a truthy auth token, the inherited
`decrypt_response` rotates it into the instance state. -/
theorem decrypt_response_rotates_token (a : ApiState) (now : Nat) (r : Resp)
    (h : strTruthy r.auth_token = true) :
    (TaxpayerAuthenticate.decrypt_response a now r).2.1.auth_token
      = r.auth_token := by
  cases h2 : natTruthy r.expiry <;> cases h3 : strTruthy r.sek <;>
    simp [TaxpayerAuthenticate.decrypt_response, h, h2, h3]

/-- Helper: whatever the business response is, `request_core` first emits
exactly one business gateway call, built from the token argument it was
given. -/
theorem request_core_gateway_event_shape (a : ApiState) (inJob : Bool)
    (now : Nat) (certResp : Resp) (method : String)
    (action return_type return_period : Option String)
    (params : List (String × String)) (endpoint : Option String)
    (json : Option Payload) (tok : Option String) (bizResp reauthResp : Resp) :
    ∃ rest, (TaxpayerBaseAPI.request_core a inJob now certResp method action
        return_type return_period params endpoint json tok bizResp reauthResp).1
      = Event.gatewayCall method endpoint action params
          (TaxpayerBaseAPI.mk_request_headers tok return_type return_period)
          (json.map (TaxpayerBaseAPI.encrypt_request a)) :: rest := by
  unfold TaxpayerBaseAPI.request_core TaxpayerBaseAPI.base_request
  rcases hp : TaxpayerBaseAPI.process_response a now certResp bizResp
    with ⟨ev, a2, rB⟩
  rcases rB with e | rb
  · exact ⟨ev, rfl⟩
  · by_cases hb : rb.error_type = some "authorization_failed"
    · refine ⟨ev ++ (TaxpayerAuthenticate.autheticate_with_otp a2 inJob now
        certResp none reauthResp).1, ?_⟩
      simp [hb]
    · exact ⟨ev, by simp [hb]⟩

/-- C10: when no valid auth token exists and an OTP is supplied, a pipeline
request whose in-line OTP authentication succeeds sends the business request
with the auth-token header still set to the value resolved before
authentication, that is absent, even though the authentication rotated a
fresh token into the instance state. -/
theorem claim_C10_stale_auth_header_after_inline_otp_auth
    (a : ApiState) (inJob : Bool) (now : Nat) (certResp : Resp)
    (method : String) (action return_type return_period : Option String)
    (params : List (String × String)) (endpoint : Option String)
    (json : Option Payload) (otp : Option String)
    (authResp bizResp reauthResp : Resp)
    (hno : a.auth_token = none)
    (hotp : strTruthy otp = true)
    (h1 : authResp.status_cd = some 1)
    (hat : strTruthy authResp.auth_token = true)
    (het : authResp.error_type = none) :
    ∃ rest,
      (TaxpayerBaseAPI.taxpayer_request a inJob now certResp method action
          return_type return_period params endpoint json otp authResp bizResp
          reauthResp).1
        = (TaxpayerAuthenticate.autheticate_with_otp a inJob now certResp otp
              authResp).1
            ++ Event.gatewayCall method endpoint action params
                 (TaxpayerBaseAPI.mk_request_headers none return_type return_period)
                 (json.map (TaxpayerBaseAPI.encrypt_request
                   (TaxpayerAuthenticate.autheticate_with_otp a inJob now certResp
                     otp authResp).2.1))
              :: rest
      ∧ (TaxpayerAuthenticate.autheticate_with_otp a inJob now certResp otp
            authResp).2.1.auth_token = authResp.auth_token := by
  have hgt : TaxpayerAuthenticate.get_auth_token a now = none := by
    unfold TaxpayerAuthenticate.get_auth_token
    simp [hno, strTruthy]
  have hAuth : (TaxpayerAuthenticate.autheticate_with_otp a inJob now certResp
      otp authResp).2.2 = Except.ok (some authResp) := by
    unfold TaxpayerAuthenticate.autheticate_with_otp TaxpayerBaseAPI.base_request
      TaxpayerBaseAPI.process_response TaxpayerBaseAPI.handle_error_response
      TaxpayerBaseAPI.decrypt_response
    simp [hotp, h1, het, hat, decrypt_response_returns_response]
  have hState : (TaxpayerAuthenticate.autheticate_with_otp a inJob now certResp
      otp authResp).2.1.auth_token = authResp.auth_token := by
    unfold TaxpayerAuthenticate.autheticate_with_otp TaxpayerBaseAPI.base_request
      TaxpayerBaseAPI.process_response TaxpayerBaseAPI.handle_error_response
      TaxpayerBaseAPI.decrypt_response
    simp [hotp, h1, het, hat, decrypt_response_rotates_token]
  have hA : TaxpayerAuthenticate.autheticate_with_otp a inJob now certResp otp
      authResp
      = ((TaxpayerAuthenticate.autheticate_with_otp a inJob now certResp otp
            authResp).1,
         (TaxpayerAuthenticate.autheticate_with_otp a inJob now certResp otp
            authResp).2.1,
         Except.ok (some authResp)) := by
    rw [← hAuth]
  obtain ⟨rest, hr⟩ := request_core_gateway_event_shape
    (TaxpayerAuthenticate.autheticate_with_otp a inJob now certResp otp
      authResp).2.1
    inJob now certResp method action return_type return_period params endpoint
    json none bizResp reauthResp
  refine ⟨rest, ?_, hState⟩
  simp only [TaxpayerBaseAPI.taxpayer_request, hgt]
  rw [hA]
  simp [het]
  rw [hr]

/-- Witness for C10 at a concrete successful in-line OTP authentication. -/
theorem claim_C10_stale_auth_header_witness :
    ∃ rest,
      (TaxpayerBaseAPI.taxpayer_request
          { company_gstin := "g", username := "u", app_key := "ak" }
          false 0 {} "get" (some "GETPREF") none none [] (some "returns") none
          (some "123456")
          { status_cd := some 1, auth_token := some "newtok", expiry := some 360,
            sek := some "wsek" }
          { status_cd := some 1 } {}).1
        = (TaxpayerAuthenticate.autheticate_with_otp
              { company_gstin := "g", username := "u", app_key := "ak" }
              false 0 {} (some "123456")
              { status_cd := some 1, auth_token := some "newtok",
                expiry := some 360, sek := some "wsek" }).1
            ++ Event.gatewayCall "get" (some "returns") (some "GETPREF") []
                 (TaxpayerBaseAPI.mk_request_headers none none none)
                 none
              :: rest
      ∧ (TaxpayerAuthenticate.autheticate_with_otp
            { company_gstin := "g", username := "u", app_key := "ak" }
            false 0 {} (some "123456")
            { status_cd := some 1, auth_token := some "newtok", expiry := some 360,
              sek := some "wsek" }).2.1.auth_token = some "newtok" := by
  exact claim_C10_stale_auth_header_after_inline_otp_auth
    { company_gstin := "g", username := "u", app_key := "ak" }
    false 0 {} "get" (some "GETPREF") none none [] (some "returns") none
    (some "123456")
    { status_cd := some 1, auth_token := some "newtok", expiry := some 360,
      sek := some "wsek" }
    { status_cd := some 1 } {}
    rfl (by decide) rfl (by decide) rfl
